import Mathlib

/-!
Verification of the CSV unit-conversion utility (`src/main.py`).

The program reads a CSV file whose rows are `(date, distance, reading)`,
converts distances between meters and feet and temperatures between Celsius
and Fahrenheit according to two target-unit parameters, and writes the
result.  We embed the row-processing core of `convert_data` shallowly:
strings are Lean `String`s, Python floats are modelled as exact rationals
(`ℚ`), Python exceptions become an explicit error type, and the CSV
reader/writer pair becomes a list of rows in and a list of rows out.

Python string operations act on sequences of code points, so we implement
the handful of primitives `convert_data` uses (slicing, lowercasing,
stripping, splitting) structurally on `String.toList`; this keeps every
definition kernel-reducible while agreeing with Python's character-level
semantics.
-/

deriving instance DecidableEq for Except

namespace ConvertData

/-- A parsed CSV data row: `date, distance, reading = row` in `main.py`. -/
structure Row where
  date : String
  distance : String
  reading : String
deriving DecidableEq, Repr

/-- The error outcomes of processing one row.  They name the Python
exceptions raised inside the row loop of `convert_data`:
`malformedDistance` is the index error raised by `distance[-1]` on an empty
distance field, `malformedReading` is the unpack error raised by
`temp_value, temp_unit = reading.split("°")` when the split does not give
exactly two parts, and `malformedValue` is the error raised by `float(...)`
on an unparseable magnitude. -/
inductive Err where
  | malformedDistance
  | malformedReading
  | malformedValue
deriving DecidableEq, Repr

/-- Python's slice `s[-n:]` (for `n ≥ 1`): the last `n` characters, or all
of `s` when it is shorter than `n`. -/
def strTakeRight (s : String) (n : Nat) : String :=
  String.mk (s.toList.drop (s.toList.length - n))

/-- Python's slice `s[:-n]` (for `n ≥ 1`): everything but the last `n`
characters. -/
def strDropRight (s : String) (n : Nat) : String :=
  String.mk (s.toList.take (s.toList.length - n))

/-- Python's `s.lower()` restricted to ASCII case mapping, which is all the
program's unit suffixes need. -/
def strToLower (s : String) : String :=
  String.mk (s.toList.map Char.toLower)

/-- Python's `s.strip()`: remove leading and trailing whitespace. -/
def strTrim (s : String) : String :=
  String.mk (((s.toList.dropWhile Char.isWhitespace).reverse.dropWhile
    Char.isWhitespace).reverse)

/-- Python `str.split(sep)` for a one-character separator, on the character
list of the string: every occurrence of the separator ends a part, so a
string with no separator gives one part, and a string with `k` separators
gives `k + 1` parts. -/
def splitOnChar (sep : Char) : List Char → List (List Char)
  | [] => [[]]
  | c :: cs =>
    match splitOnChar sep cs with
    | [] => [[]]
    | p :: ps => if c = sep then [] :: p :: ps else (c :: p) :: ps

/-- The degree sign `°` (U+00B0), the separator used by
`reading.split("°")`. -/
def degreeSign : Char := '°'

/-- Numeric value of a list of decimal digit characters. -/
def digitsVal (l : List Char) : Nat :=
  l.foldl (fun a c => a * 10 + (c.toNat - 48)) 0

/-- Decimal-literal fragment of Python `float`: digits with at most one
decimal point and at least one digit (Python accepts `"1."` and `".5"` but
not `"."` or `""`).  Exponents, `inf`/`nan` and digit underscores are not
used by this program's data and are not modelled.  The result is the exact
rational value of the literal. -/
def parseUnsignedDec (l : List Char) : Option ℚ :=
  match splitOnChar '.' l with
  | [a] =>
      if a.length ≠ 0 ∧ a.all Char.isDigit then
        some (digitsVal a)
      else none
  | [a, b] =>
      if a.length + b.length ≠ 0 ∧ (a ++ b).all Char.isDigit then
        some ((digitsVal a * 10 ^ b.length + digitsVal b : ℚ) / 10 ^ b.length)
      else none
  | _ => none

/-- Python `float(s)` on the decimal-literal fragment (see
`parseUnsignedDec`): strip surrounding whitespace, handle an optional
sign, parse the rest as an unsigned decimal literal. -/
def parseDecimal (s : String) : Option ℚ :=
  match (strTrim s).toList with
  | [] => none
  | c :: rest =>
      if c = '-' then (parseUnsignedDec rest).map Neg.neg
      else if c = '+' then parseUnsignedDec rest
      else parseUnsignedDec (c :: rest)

/-- `float(s)` as used inside the conversion branches: an unparseable
magnitude raises `malformedValue`. -/
def floatOrErr (s : String) : Except Err ℚ :=
  match parseDecimal s with
  | some q => Except.ok q
  | none => Except.error Err.malformedValue

/-- Two-digit zero padding used by fixed-point rendering. -/
def pad2 (n : Nat) : String :=
  if n < 10 then "0" ++ toString n else toString n

/-- Python's `f"{x:.2f}"`: the value rounded to the nearest hundredth and
rendered with exactly two digits after the decimal point. -/
def format2 (q : ℚ) : String :=
  (if round (q * 100) < 0 then "-" else "") ++
    toString ((round (q * 100)).natAbs / 100) ++ "." ++
    pad2 ((round (q * 100)).natAbs % 100)

/-- Modelled from the spec: `meters_to_feet` from the repository's
`convertor.distance` module (imported as `to_ft` in `main.py`), whose
source is not under `src/`.  Spec §4.2: `metersToFeet(m) = m * 3.28084`. -/
def to_ft (m : ℚ) : ℚ := m * (328084 / 100000)

/-- Modelled from the spec: `feet_to_meters` from `convertor.distance`
(imported as `to_m`).  Spec §4.2: `feetToMeters(ft) = ft / 3.28084`. -/
def to_m (ft : ℚ) : ℚ := ft / (328084 / 100000)

/-- Modelled from the spec: `celsius_to_fahrenheit` from
`convertor.temperature` (imported as `to_F`).  Spec §4.2:
`celsiusToFahrenheit(c) = c * 9/5 + 32`. -/
def to_F (c : ℚ) : ℚ := c * 9 / 5 + 32

/-- Modelled from the spec: `fahrenheit_to_celsius` from
`convertor.temperature` (imported as `to_C`).  Spec §4.2:
`fahrenheitToCelsius(f) = (f - 32) * 5/9`. -/
def to_C (f : ℚ) : ℚ := (f - 32) * 5 / 9

/-- Lines 57–60 of `main.py`: split a distance field into magnitude string
and unit string.  `if distance[-2:].lower() == "ft"` strips a trailing
(case-insensitive) `ft`; otherwise the last character is the unit.
`distance[-1]` on an empty string raises (the `malformedDistance` case);
Python's slices `[-2:]` and `[:-1]` never raise. -/
def parseDistanceField (distance : String) : Except Err (String × String) :=
  if strToLower (strTakeRight distance 2) == "ft" then
    Except.ok (strDropRight distance 2, "ft")
  else if distance = "" then
    Except.error Err.malformedDistance
  else
    Except.ok (strDropRight distance 1, strTakeRight distance 1)

/-- Lines 62–64 of `main.py`: `temp_value, temp_unit = reading.split("°")`
followed by `temp_unit = "°" + temp_unit.strip()`.  The unpacking raises
unless the split yields exactly two parts, i.e. unless the reading holds
exactly one degree sign. -/
def parseReadingField (reading : String) : Except Err (String × String) :=
  match splitOnChar degreeSign reading.toList with
  | [v, u] => Except.ok (String.mk v, "°" ++ strTrim (String.mk u))
  | _ => Except.error Err.malformedReading

/-- Lines 67–74 of `main.py`: the distance conversion branch.  `distance`
is the original field, `dv`/`du` the parsed magnitude string and unit. -/
def newDistance (targetDist distance dv du : String) : Except Err String :=
  if targetDist == "m" && du == "ft" then
    match floatOrErr dv with
    | Except.ok x => Except.ok (format2 (to_m x) ++ "m")
    | Except.error e => Except.error e
  else if targetDist == "f" && du == "m" then
    match floatOrErr dv with
    | Except.ok x => Except.ok (format2 (to_ft x) ++ "ft")
    | Except.error e => Except.error e
  else
    Except.ok distance

/-- Lines 77–84 of `main.py`: the temperature conversion branch.  Python's
`"F" in temp_unit` is substring containment, which for the one-character
needle `F` is exactly membership of the character `F` in `temp_unit`. -/
def newReading (targetTemp reading tv tu : String) : Except Err String :=
  if targetTemp == "C" && tu.toList.contains 'F' then
    match floatOrErr tv with
    | Except.ok x => Except.ok (format2 (to_C x) ++ "°C")
    | Except.error e => Except.error e
  else if targetTemp == "F" && tu.toList.contains 'C' then
    match floatOrErr tv with
    | Except.ok x => Except.ok (format2 (to_F x) ++ "°F")
    | Except.error e => Except.error e
  else
    Except.ok reading

/-- The body of the row loop of `convert_data` (lines 56–86): parse the
distance field, parse the reading field, run both conversion branches, and
emit the output row `[date, new_distance, new_reading]`.  The order of the
matches reproduces the order in which the Python statements can raise. -/
def convertRow (targetTemp targetDist : String) (r : Row) : Except Err Row :=
  match parseDistanceField r.distance with
  | Except.error e => Except.error e
  | Except.ok d =>
    match parseReadingField r.reading with
    | Except.error e => Except.error e
    | Except.ok t =>
      match newDistance targetDist r.distance d.1 d.2 with
      | Except.error e => Except.error e
      | Except.ok nd =>
        match newReading targetTemp r.reading t.1 t.2 with
        | Except.error e => Except.error e
        | Except.ok nr => Except.ok ⟨r.date, nd, nr⟩

/-- The row loop of `convert_data`: rows are processed strictly in order;
each successful row is written; the first error aborts the loop, and
nothing after it is written. -/
def processRows (targetTemp targetDist : String) : List Row → List Row × Option Err
  | [] => ([], none)
  | r :: rs =>
    match convertRow targetTemp targetDist r with
    | Except.ok r' =>
        let p := processRows targetTemp targetDist rs
        (r' :: p.1, p.2)
    | Except.error e => ([], some e)

/-- `convert_data(input_file, output_file, target_temp_unit, target_dist_unit)`
with the file I/O made explicit: the input is the header row plus the data
rows, the output is the list of written rows (header first) paired with the
error that aborted the run, if any. -/
def convertData (targetTemp targetDist : String) (header : Row) (rows : List Row) :
    List Row × Option Err :=
  (header :: (processRows targetTemp targetDist rows).1,
    (processRows targetTemp targetDist rows).2)

/-- One output line as produced by `csv.writer.writerow` for fields that
contain no delimiter, quote or line break (true of every field this
development mentions): the three fields joined by commas. -/
def serializeRow (r : Row) : String :=
  r.date ++ "," ++ r.distance ++ "," ++ r.reading

/-! ### Helper lemmas -/

lemma floatOrErr_none {s : String} (h : parseDecimal s = none) :
    floatOrErr s = Except.error Err.malformedValue := by
  unfold floatOrErr
  rw [h]

lemma floatOrErr_some {s : String} {x : ℚ} (h : parseDecimal s = some x) :
    floatOrErr s = Except.ok x := by
  unfold floatOrErr
  rw [h]

lemma parseDistanceField_ok {s : String} (h : s ≠ "") :
    ∃ p, parseDistanceField s = Except.ok p := by
  unfold parseDistanceField
  by_cases h1 : (strToLower (strTakeRight s 2) == "ft") = true
  · rw [if_pos h1]
    exact ⟨_, rfl⟩
  · rw [if_neg h1, if_neg h]
    exact ⟨_, rfl⟩

lemma splitOnChar_of_not_mem {sep : Char} {l : List Char} (h : ∀ c ∈ l, c ≠ sep) :
    splitOnChar sep l = [l] := by
  induction l with
  | nil => rfl
  | cons c cs ih =>
      have hc : c ≠ sep := h c (List.mem_cons_self c cs)
      have hcs : ∀ x ∈ cs, x ≠ sep := fun x hx => h x (List.mem_cons_of_mem c hx)
      unfold splitOnChar
      rw [ih hcs]
      simp [hc]

lemma parseReadingField_no_degree {s : String} (h : ∀ c ∈ s.toList, c ≠ degreeSign) :
    parseReadingField s = Except.error Err.malformedReading := by
  unfold parseReadingField
  rw [splitOnChar_of_not_mem h]

lemma convertRow_no_degree {tT tD : String} {r : Row} (hne : r.distance ≠ "")
    (hdeg : ∀ c ∈ r.reading.toList, c ≠ degreeSign) :
    convertRow tT tD r = Except.error Err.malformedReading := by
  obtain ⟨p, hp⟩ := parseDistanceField_ok hne
  unfold convertRow
  rw [hp, parseReadingField_no_degree hdeg]

lemma processRows_append_error {tT tD : String} {pre pre' : List Row} {r : Row}
    {post : List Row} {e : Err}
    (hok : List.Forall₂ (fun p p' => convertRow tT tD p = Except.ok p') pre pre')
    (hr : convertRow tT tD r = Except.error e) :
    processRows tT tD (pre ++ r :: post) = (pre', some e) := by
  induction hok with
  | nil => simp [processRows, hr]
  | cons h _ ih => simp [processRows, h, ih]

lemma round_to_ft_41 : round (to_ft 41 * 100) = 13451 := by
  rw [round_eq]
  norm_num [to_ft]

lemma round_to_F_10 : round (to_F 10 * 100) = 5000 := by
  rw [round_eq]
  norm_num [to_F]

lemma format2_to_ft_41 : format2 (to_ft 41) = "134.51" := by
  unfold format2
  rw [round_to_ft_41]
  decide

lemma format2_to_F_10 : format2 (to_F 10) = "50.00" := by
  unfold format2
  rw [round_to_F_10]
  decide

lemma newDistance_41m_f : newDistance "f" "41m" "41" "m" = Except.ok "134.51ft" := by
  have hfd : floatOrErr "41" = Except.ok (41 : ℚ) := by decide
  simp [newDistance, hfd, format2_to_ft_41]

lemma newReading_10C_F : newReading "F" "10°C" "10" "°C" = Except.ok "50.00°F" := by
  have hft : floatOrErr "10" = Except.ok (10 : ℚ) := by decide
  simp [newReading, hft, format2_to_F_10]

lemma convertRow_scenarioB :
    convertRow "F" "f" ⟨"2024-01-01", "41m", "10°C"⟩ =
      Except.ok ⟨"2024-01-01", "134.51ft", "50.00°F"⟩ := by
  have hd : parseDistanceField "41m" = Except.ok ("41", "m") := by decide
  have ht : parseReadingField "10°C" = Except.ok ("10", "°C") := by decide
  simp [convertRow, hd, ht, newDistance_41m_f, newReading_10C_F]

/-! ### Claims -/

/-- C1.  Scenario B: the data row `(2024-01-01, 41m, 10°C)` with targets
`(F, f)` produces exactly the output line `2024-01-01,134.51ft,50.00°F`:
41 meters becomes 134.51 feet (two decimals) and 10 °C becomes 50.00 °F. -/
theorem scenarioB_converts_row :
    convertData "F" "f" ⟨"Date", "Distance", "Reading"⟩ [⟨"2024-01-01", "41m", "10°C"⟩] =
      ([⟨"Date", "Distance", "Reading"⟩, ⟨"2024-01-01", "134.51ft", "50.00°F"⟩], none) ∧
    serializeRow ⟨"2024-01-01", "134.51ft", "50.00°F"⟩ = "2024-01-01,134.51ft,50.00°F" := by
  refine ⟨?_, by decide⟩
  simp [convertData, processRows, convertRow_scenarioB]

/-- C2.  A field is converted only when its parsed unit differs from the
requested target: whenever a parsed unit already corresponds to the target
(`m`/`m`, `ft`/`f` for distance; `°C`/`C`, `°F`/`F` for temperature) the
field passes through verbatim, and a row with both units matching is
emitted completely unchanged. -/
theorem matched_units_passthrough (tT tD : String) (r : Row) (dv du tv tu : String)
    (hd : parseDistanceField r.distance = Except.ok (dv, du))
    (ht : parseReadingField r.reading = Except.ok (tv, tu))
    (hmd : (tD = "m" ∧ du = "m") ∨ (tD = "f" ∧ du = "ft"))
    (hmt : (tT = "C" ∧ tu = "°C") ∨ (tT = "F" ∧ tu = "°F")) :
    newDistance tD r.distance dv du = Except.ok r.distance ∧
    newReading tT r.reading tv tu = Except.ok r.reading ∧
    convertRow tT tD r = Except.ok r := by
  have h1 : newDistance tD r.distance dv du = Except.ok r.distance := by
    obtain ⟨hA, hB⟩ | ⟨hA, hB⟩ := hmd <;> subst hA <;> subst hB <;> rfl
  have h2 : newReading tT r.reading tv tu = Except.ok r.reading := by
    obtain ⟨hA, hB⟩ | ⟨hA, hB⟩ := hmt <;> subst hA <;> subst hB <;> rfl
  refine ⟨h1, h2, ?_⟩
  unfold convertRow
  simp only [hd, ht, h1, h2]

/-- Witness for C2: Scenario A, the row `(2024-01-01, 41m, 10°C)` with
targets `(C, m)` passes through unchanged. -/
theorem matched_units_passthrough_witness :
    convertRow "C" "m" ⟨"2024-01-01", "41m", "10°C"⟩ =
      Except.ok ⟨"2024-01-01", "41m", "10°C"⟩ :=
  (matched_units_passthrough "C" "m" ⟨"2024-01-01", "41m", "10°C"⟩ "41" "m" "10" "°C"
    (by decide) (by decide) (Or.inl ⟨rfl, rfl⟩) (Or.inl ⟨rfl, rfl⟩)).2.2

/-- C3 counterexample.  The distance unit `x` is outside the two recognized
distance units, yet `convert_data` raises no error at all: the row is
silently emitted verbatim, so no `UnsupportedUnit` failure occurs. -/
theorem unsupported_unit_cex :
    convertData "C" "m" ⟨"Date", "Distance", "Reading"⟩ [⟨"2024-01-01", "41x", "10°C"⟩] =
      ([⟨"Date", "Distance", "Reading"⟩, ⟨"2024-01-01", "41x", "10°C"⟩], none) := by
  decide

/-- C3 amended.  A field whose unit symbol is outside the recognized values
is never rejected: a distance unit other than `m`/`ft` matches no
conversion branch and passes through verbatim, and a temperature unit
containing neither `F` nor `C` likewise passes through verbatim; the code
has no `UnsupportedUnit` error path. -/
theorem unrecognized_unit_passthrough (tT tD d dv du r tv tu : String)
    (h1 : du ≠ "m") (h2 : du ≠ "ft")
    (h3 : tu.toList.contains 'F' = false) (h4 : tu.toList.contains 'C' = false) :
    newDistance tD d dv du = Except.ok d ∧ newReading tT r tv tu = Except.ok r := by
  constructor
  · have hA : ¬((tD == "m" && du == "ft") = true) := by
      simp only [Bool.and_eq_true, beq_iff_eq]
      rintro ⟨-, h⟩
      exact h2 h
    have hB : ¬((tD == "f" && du == "m") = true) := by
      simp only [Bool.and_eq_true, beq_iff_eq]
      rintro ⟨-, h⟩
      exact h1 h
    unfold newDistance
    rw [if_neg hA, if_neg hB]
  · have hA : ¬((tT == "C" && tu.toList.contains 'F') = true) := by
      simp only [Bool.and_eq_true]
      rintro ⟨-, h⟩
      rw [h3] at h
      exact Bool.false_ne_true h
    have hB : ¬((tT == "F" && tu.toList.contains 'C') = true) := by
      simp only [Bool.and_eq_true]
      rintro ⟨-, h⟩
      rw [h4] at h
      exact Bool.false_ne_true h
    unfold newReading
    rw [if_neg hA, if_neg hB]

/-- Witness for the amended C3: unit `x` and unit `°K` pass through. -/
theorem unrecognized_unit_passthrough_witness :
    newDistance "m" "41x" "41" "x" = Except.ok "41x" ∧
    newReading "C" "10°K" "10" "°K" = Except.ok "10°K" :=
  unrecognized_unit_passthrough "C" "m" "41x" "41" "x" "10°K" "10" "°K"
    (by decide) (by decide) (by decide) (by decide)

/-- C4 counterexample.  The magnitude substring `x` of the distance field
`xm` is not parseable as a number, yet with targets `(C, m)` (unit already
matching) `convert_data` raises no `MalformedValue` error and passes the
field through — so the failure is not independent of the requested target
units. -/
theorem malformed_value_passthrough_cex :
    parseDecimal "x" = none ∧
    convertData "C" "m" ⟨"Date", "Distance", "Reading"⟩ [⟨"2024-01-01", "xm", "10°C"⟩] =
      ([⟨"Date", "Distance", "Reading"⟩, ⟨"2024-01-01", "xm", "10°C"⟩], none) := by
  decide

/-- C4 amended.  An unparseable magnitude fails with `MalformedValue`
exactly when a conversion is attempted on that field, i.e. when the parsed
unit differs from the requested target so that a conversion branch fires;
when no conversion applies the unparseable field passes through. -/
theorem malformed_value_on_conversion (tD d dv du tT r tv tu : String)
    (hpd : parseDecimal dv = none) (hpt : parseDecimal tv = none)
    (hd : (tD = "m" ∧ du = "ft") ∨ (tD = "f" ∧ du = "m"))
    (ht : (tT = "C" ∧ tu.toList.contains 'F' = true) ∨
      (tT = "F" ∧ tu.toList.contains 'C' = true)) :
    newDistance tD d dv du = Except.error Err.malformedValue ∧
    newReading tT r tv tu = Except.error Err.malformedValue := by
  constructor
  · obtain ⟨hA, hB⟩ | ⟨hA, hB⟩ := hd <;> subst hA <;> subst hB <;>
      simp [newDistance, floatOrErr_none hpd]
  · obtain ⟨hA, hB⟩ | ⟨hA, hB⟩ := ht <;> subst hA <;>
      simp [newReading, hB, floatOrErr_none hpt] <;> simpa using hB

/-- Witness for the amended C4: magnitude `x` with a conversion requested
fails with `MalformedValue` on both fields. -/
theorem malformed_value_on_conversion_witness :
    newDistance "m" "xft" "x" "ft" = Except.error Err.malformedValue ∧
    newReading "C" "x°F" "x" "°F" = Except.error Err.malformedValue :=
  malformed_value_on_conversion "m" "xft" "x" "ft" "C" "x°F" "x" "°F"
    (by decide) (by decide) (Or.inl ⟨rfl, rfl⟩) (Or.inl ⟨rfl, by decide⟩)

/-- C5 counterexample.  The reading `10C` has no degree sign, but because
the distance field of the same row is empty and the distance is parsed
first, `convert_data` fails with `MalformedDistance`, not
`MalformedReading`. -/
theorem no_degree_sign_cex :
    "10C".toList.contains degreeSign = false ∧
    convertData "C" "m" ⟨"Date", "Distance", "Reading"⟩ [⟨"2024-01-01", "", "10C"⟩] =
      ([⟨"Date", "Distance", "Reading"⟩], some Err.malformedDistance) := by
  decide

/-- C5 amended.  For a data row whose reading holds no degree sign and
whose distance field is nonempty (so that the earlier distance parse does
not fail first), `convert_data` aborts with `MalformedReading` after
writing only the header and the successfully converted rows before it. -/
theorem no_degree_sign_fails (tT tD : String) (hdr : Row) (pre pre' post : List Row)
    (r : Row)
    (hok : List.Forall₂ (fun p p' => convertRow tT tD p = Except.ok p') pre pre')
    (hne : r.distance ≠ "")
    (hdeg : ∀ c ∈ r.reading.toList, c ≠ degreeSign) :
    convertData tT tD hdr (pre ++ r :: post) = (hdr :: pre', some Err.malformedReading) := by
  unfold convertData
  rw [processRows_append_error hok (convertRow_no_degree hne hdeg)]

/-- Witness for the amended C5: the second row's reading `10C` aborts the
run with `MalformedReading`; only the header and the first row are
written, and the third row is never processed. -/
theorem no_degree_sign_fails_witness :
    convertData "C" "m" ⟨"Date", "Distance", "Reading"⟩
      [⟨"2024-01-01", "41m", "10°C"⟩, ⟨"2024-01-02", "41m", "10C"⟩,
        ⟨"2024-01-03", "5m", "7°C"⟩] =
      ([⟨"Date", "Distance", "Reading"⟩, ⟨"2024-01-01", "41m", "10°C"⟩],
        some Err.malformedReading) :=
  no_degree_sign_fails "C" "m" ⟨"Date", "Distance", "Reading"⟩
    [⟨"2024-01-01", "41m", "10°C"⟩] [⟨"2024-01-01", "41m", "10°C"⟩]
    [⟨"2024-01-03", "5m", "7°C"⟩] ⟨"2024-01-02", "41m", "10C"⟩
    (List.Forall₂.cons (by decide) List.Forall₂.nil) (by decide) (by decide)

/-- C6 counterexample.  The distance field `m` has no characters left
after removing its unit suffix, yet `convert_data` does not fail with
`MalformedDistance`: with target `m` the row is emitted verbatim. -/
theorem suffix_only_distance_cex :
    convertData "C" "m" ⟨"Date", "Distance", "Reading"⟩ [⟨"2024-01-01", "m", "10°C"⟩] =
      ([⟨"Date", "Distance", "Reading"⟩, ⟨"2024-01-01", "m", "10°C"⟩], none) := by
  decide

/-- C6 amended.  `MalformedDistance` is raised for exactly the empty
distance field: distance parsing fails with `MalformedDistance` iff the
field is the empty string, and a row with an empty distance field always
makes `convert_data`'s row processing fail with `MalformedDistance`.  A
field consisting only of its suffix parses with an empty magnitude instead
of failing here. -/
theorem empty_distance_fails :
    (∀ s : String, parseDistanceField s = Except.error Err.malformedDistance ↔ s = "") ∧
    (∀ tT tD date reading : String,
      convertRow tT tD ⟨date, "", reading⟩ = Except.error Err.malformedDistance) := by
  constructor
  · intro s
    constructor
    · intro h
      unfold parseDistanceField at h
      by_cases h1 : (strToLower (strTakeRight s 2) == "ft") = true
      · rw [if_pos h1] at h
        exact Except.noConfusion h
      · rw [if_neg h1] at h
        by_cases h2 : s = ""
        · exact h2
        · rw [if_neg h2] at h
          exact Except.noConfusion h
    · intro h
      subst h
      decide
  · intro tT tD date reading
    have h : parseDistanceField "" = Except.error Err.malformedDistance := by decide
    simp [convertRow, h]

lemma pad2_shape : ∀ m : Fin 100,
    (pad2 m.val).length = 2 ∧ (pad2 m.val).toList.all Char.isDigit = true := by
  decide

lemma format2_shape (q : ℚ) : ∃ w p : String, format2 q = w ++ "." ++ p ∧
    p.length = 2 ∧ p.toList.all Char.isDigit = true := by
  refine ⟨(if round (q * 100) < 0 then "-" else "") ++
    toString ((round (q * 100)).natAbs / 100),
    pad2 ((round (q * 100)).natAbs % 100), rfl, ?_, ?_⟩
  · exact (pad2_shape ⟨(round (q * 100)).natAbs % 100, Nat.mod_lt _ (by norm_num)⟩).1
  · exact (pad2_shape ⟨(round (q * 100)).natAbs % 100, Nat.mod_lt _ (by norm_num)⟩).2

/-- C7.  Whenever a conversion branch fires, the output field is exactly
the converted value rendered by the two-decimal formatter, immediately
followed (no separator) by the canonical suffix of the target unit —
`m`, `ft`, `°C` or `°F` — and the formatter always produces a string
ending in a decimal point followed by exactly two decimal digits. -/
theorem conversion_renders_two_decimals (tD tT d r dv du tv tu : String) (x y : ℚ)
    (hx : parseDecimal dv = some x) (hy : parseDecimal tv = some y) :
    ((tD = "m" ∧ du = "ft") →
      newDistance tD d dv du = Except.ok (format2 (to_m x) ++ "m")) ∧
    ((tD = "f" ∧ du = "m") →
      newDistance tD d dv du = Except.ok (format2 (to_ft x) ++ "ft")) ∧
    ((tT = "C" ∧ tu.toList.contains 'F' = true) →
      newReading tT r tv tu = Except.ok (format2 (to_C y) ++ "°C")) ∧
    ((tT = "F" ∧ tu.toList.contains 'C' = true) →
      newReading tT r tv tu = Except.ok (format2 (to_F y) ++ "°F")) ∧
    (∀ q : ℚ, ∃ w p : String, format2 q = w ++ "." ++ p ∧
      p.length = 2 ∧ p.toList.all Char.isDigit = true) := by
  refine ⟨?_, ?_, ?_, ?_, format2_shape⟩
  · rintro ⟨hA, hB⟩
    subst hA
    subst hB
    simp [newDistance, floatOrErr_some hx]
  · rintro ⟨hA, hB⟩
    subst hA
    subst hB
    simp [newDistance, floatOrErr_some hx]
  · rintro ⟨hA, hB⟩
    subst hA
    have hB' : 'F' ∈ tu.data := by simpa using hB
    simp [newReading, hB', floatOrErr_some hy]
  · rintro ⟨hA, hB⟩
    subst hA
    have hB' : 'C' ∈ tu.data := by simpa using hB
    simp [newReading, hB', floatOrErr_some hy]

/-- Witness for C7: converting `41` meters to feet and `10` °C to °F
renders the formatted value followed by the canonical suffix. -/
theorem conversion_renders_two_decimals_witness :
    newDistance "f" "41m" "41" "m" = Except.ok (format2 (to_ft 41) ++ "ft") ∧
    newReading "F" "10°C" "10" "°C" = Except.ok (format2 (to_F 10) ++ "°F") :=
  ⟨(conversion_renders_two_decimals "f" "F" "41m" "10°C" "41" "m" "10" "°C" 41 10
      (by decide) (by decide)).2.1 ⟨rfl, rfl⟩,
    (conversion_renders_two_decimals "f" "F" "41m" "10°C" "41" "m" "10" "°C" 41 10
      (by decide) (by decide)).2.2.2.1 ⟨rfl, by decide⟩⟩

/-- C8.  The temperature conversions are exact inverses
(`fahrenheitToCelsius (celsiusToFahrenheit c) = c`), and the distance
round trip `feetToMeters (metersToFeet m)` is within `1e-6` of `m` (in
exact rational arithmetic it is in fact exact). -/
theorem roundtrip_inverse :
    (∀ c : ℚ, to_C (to_F c) = c) ∧
    (∀ m : ℚ, |to_m (to_ft m) - m| ≤ 1 / 1000000) := by
  constructor
  · intro c
    unfold to_C to_F
    ring
  · intro m
    have h : to_m (to_ft m) = m := by
      unfold to_m to_ft
      field_simp
    rw [h, sub_self, abs_zero]
    norm_num

/-- C9.  Processing is fail-stop: rows are handled strictly in input
order, the first failing row aborts the run with its error, and the
output then holds exactly the header plus the successfully converted
rows that preceded the failing one — nothing at or after the failure is
written. -/
theorem fail_stop_prefix (tT tD : String) (hdr : Row) (pre pre' post : List Row)
    (r : Row) (e : Err)
    (hok : List.Forall₂ (fun p p' => convertRow tT tD p = Except.ok p') pre pre')
    (hr : convertRow tT tD r = Except.error e) :
    convertData tT tD hdr (pre ++ r :: post) = (hdr :: pre', some e) := by
  unfold convertData
  rw [processRows_append_error hok hr]

/-- Witness for C9: a run whose second row has an empty distance field
stops there with `MalformedDistance`; the header and first row are the
whole output and the third row is never reached. -/
theorem fail_stop_prefix_witness :
    convertData "C" "m" ⟨"Date", "Distance", "Reading"⟩
      [⟨"2024-01-01", "41m", "10°C"⟩, ⟨"2024-01-02", "", "10°C"⟩,
        ⟨"2024-01-03", "5m", "7°C"⟩] =
      ([⟨"Date", "Distance", "Reading"⟩, ⟨"2024-01-01", "41m", "10°C"⟩],
        some Err.malformedDistance) :=
  fail_stop_prefix "C" "m" ⟨"Date", "Distance", "Reading"⟩
    [⟨"2024-01-01", "41m", "10°C"⟩] [⟨"2024-01-01", "41m", "10°C"⟩]
    [⟨"2024-01-03", "5m", "7°C"⟩] ⟨"2024-01-02", "", "10°C"⟩ Err.malformedDistance
    (List.Forall₂.cons (by decide) List.Forall₂.nil) (by decide)

/-- C10 counterexample.  With the invalid distance target `ft`, a row
whose distance field is empty is not emitted verbatim: the run still
raises `MalformedDistance`, so invalid targets are not a universal
error-free passthrough. -/
theorem invalid_target_units_cex :
    convertData "C" "ft" ⟨"Date", "Distance", "Reading"⟩ [⟨"2024-01-01", "", "10°C"⟩] =
      ([⟨"Date", "Distance", "Reading"⟩], some Err.malformedDistance) := by
  decide

/-- C10 amended.  A target distance unit other than `m`/`f` (including
`ft`) makes every distance conversion branch dead: any parsed distance
field passes through verbatim; symmetrically a target temperature unit
other than `C`/`F` passes every parsed reading through verbatim.  (Field
parsing still happens first, so an empty distance field still fails with
`MalformedDistance`.) -/
theorem invalid_target_units_passthrough (tD d dv du tT r tv tu : String)
    (h1 : tD ≠ "m") (h2 : tD ≠ "f") (h3 : tT ≠ "C") (h4 : tT ≠ "F") :
    newDistance tD d dv du = Except.ok d ∧ newReading tT r tv tu = Except.ok r := by
  constructor
  · have hA : ¬((tD == "m" && du == "ft") = true) := by
      simp only [Bool.and_eq_true, beq_iff_eq]
      rintro ⟨h, -⟩
      exact h1 h
    have hB : ¬((tD == "f" && du == "m") = true) := by
      simp only [Bool.and_eq_true, beq_iff_eq]
      rintro ⟨h, -⟩
      exact h2 h
    unfold newDistance
    rw [if_neg hA, if_neg hB]
  · have hA : ¬((tT == "C" && tu.toList.contains 'F') = true) := by
      simp only [Bool.and_eq_true, beq_iff_eq]
      rintro ⟨h, -⟩
      exact h3 h
    have hB : ¬((tT == "F" && tu.toList.contains 'C') = true) := by
      simp only [Bool.and_eq_true, beq_iff_eq]
      rintro ⟨h, -⟩
      exact h4 h
    unfold newReading
    rw [if_neg hA, if_neg hB]

/-- Witness for the amended C10: with targets `ft` and `K`, the parsed
fields `41m` and `10°C` pass through verbatim. -/
theorem invalid_target_units_passthrough_witness :
    newDistance "ft" "41m" "41" "m" = Except.ok "41m" ∧
    newReading "K" "10°C" "10" "°C" = Except.ok "10°C" :=
  invalid_target_units_passthrough "ft" "41m" "41" "m" "K" "10°C" "10" "°C"
    (by decide) (by decide) (by decide) (by decide)

end ConvertData
